import Mathlib

/-!
Shallow embedding of the bcc-exporter HTTP profiling handler (main.go).

The handler `runProfile` and its helpers `validatePID`, `checkRequiredTools`,
`runPerfProfile`, `runBCCProfile` and `generateMockProfile` are translated
into pure Lean functions.  All interaction with the outside world
(the /proc filesystem, executable lookup on PATH, temporary-directory
creation, subprocess execution, stat/open/stream of files) is mediated by
an oracle structure `World` that fixes the outcome of each external call,
and every external call performed is recorded in a trace of `Event`s, so
that theorems can speak about which effects a request triggers and in
which order.
-/

namespace BccExporter

/-- Result of an `os.Stat` call: the file does not exist, the lookup itself
errored, or the file exists with the given size in bytes. -/
inductive StatResult where
  | notExist
  | accessError (msg : String)
  | file (size : Nat)
deriving DecidableEq, Repr

/-- Outcome of one subprocess execution (`exec.Cmd.Run`): whether `Run`
returned nil, the rendering of the non-nil error when it did not
(for example "exit status 1"), and the captured stdout and stderr. -/
structure SubprocResult where
  ok : Bool
  errStr : String
  stdout : String
  stderr : String
deriving DecidableEq, Repr

/-- Oracle fixing the outcome of every external interaction a single
request can perform. -/
structure World where
  /-- result of `os.Stat("/proc/" + pid)` -/
  procStat : String → StatResult
  /-- rendering of the `exec.LookPath` error for a missing tool -/
  lookPathErr : String → String
  /-- whether `exec.LookPath "perf"` succeeds -/
  perfOnPath : Bool
  /-- whether `exec.LookPath "pprof"` succeeds -/
  pprofOnPath : Bool
  /-- whether `os.MkdirTemp` succeeds -/
  mkdirOk : Bool
  /-- rendering of the `os.MkdirTemp` error when it fails -/
  mkdirErr : String
  /-- the unique temporary directory name returned by `os.MkdirTemp` -/
  tempDirName : String
  /-- outcome of the `perf record` subprocess -/
  perfRun : SubprocResult
  /-- result of `os.Stat` on perf.data after `perf record` succeeded -/
  perfDataStat : StatResult
  /-- outcome of the `pprof -proto` conversion subprocess -/
  pprofRun : SubprocResult
  /-- result of `os.Stat` on profile.pb.gz after conversion succeeded -/
  pprofFileStat : StatResult
  /-- whether `os.Open` on profile.pb.gz succeeds -/
  openOk : Bool
  /-- rendering of the `os.Open` error when it fails -/
  openErr : String
  /-- contents of profile.pb.gz streamed on success -/
  fileBytes : String
  /-- whether `io.Copy` to the response completes -/
  copyOk : Bool
  /-- the bytes that made it out before `io.Copy` failed -/
  partialBytes : String
  /-- outcome of the `sudo profile-bpfcc` subprocess -/
  bccRun : SubprocResult

/-- One recorded external effect of handling a request. -/
inductive Event where
  | procLookup (pid : String)
  | lookPath (tool : String)
  | mkdirTemp
  | runSubprocess (cmd : String) (args : List String)
  | statFile (path : String)
  | openFile (path : String)
  | removeAll
deriving DecidableEq, Repr

/-- The parts of the HTTP response the handler controls: status code,
Content-Type and Content-Disposition headers, and the body bytes. -/
structure Response where
  status : Nat
  contentType : Option String
  contentDisposition : Option String
  body : String
deriving DecidableEq, Repr

/-- Model of `http.Error(w, msg, code)`: text/plain content type, the message plus a
trailing newline as body, and the given status code. -/
def httpError (msg : String) (code : Nat) : Response :=
  { status := code
    contentType := some "text/plain; charset=utf-8"
    contentDisposition := none
    body := msg ++ "\n" }

/-- The raw query parameters of a profiling request; `Query().Get` returns
the empty string for an absent parameter. -/
structure Request where
  pid : String
  seconds : String
  testQ : String
deriving DecidableEq, Repr

/-- The format selector: the /debug/pprof/profile route passes "pprof",
the /debug/folded/profile route passes "folded". -/
inductive Format where
  | pprof
  | folded
deriving DecidableEq, Repr

/-- Whether `pat` occurs as a contiguous run inside `hay`. -/
def containsSub (pat hay : List Char) : Bool :=
  match hay with
  | [] => pat.isEmpty
  | _ :: t => pat.isPrefixOf hay || containsSub pat t

/-- Model of `strings.Contains s sub`. -/
def containsStr (s sub : String) : Bool :=
  containsSub sub.data s.data

/-- Numeric value of a digit list, most significant first. -/
def digitsVal (cs : List Char) : Nat :=
  cs.foldl (fun a c => a * 10 + (c.toNat - 48)) 0

/-- A nonempty list consisting only of ASCII decimal digits. -/
def allDigits (cs : List Char) : Bool :=
  !cs.isEmpty && cs.all (·.isDigit)

/-- Largest value of Go's 64-bit int. -/
def int64Max : Nat := 9223372036854775807

/-- Model of `strconv.Atoi`: an optional single leading sign followed by at least one
decimal digit, value required to fit in a 64-bit int; anything else is an
error, modelled as `none`. -/
def goAtoi (s : String) : Option Int :=
  match s.data with
  | [] => none
  | '-' :: rest =>
      if allDigits rest ∧ digitsVal rest ≤ int64Max + 1 then
        some (-(digitsVal rest : Int))
      else none
  | '+' :: rest =>
      if allDigits rest ∧ digitsVal rest ≤ int64Max then
        some (digitsVal rest : Int)
      else none
  | cs =>
      if allDigits cs ∧ digitsVal cs ≤ int64Max then
        some (digitsVal cs : Int)
      else none

/-- Embedding of `validatePID` of main.go: `strconv.Atoi` on the pid string, then
`os.Stat("/proc/" + pid)`.  Returns the error message on failure together
with the external events performed. -/
def validatePID (w : World) (pid : String) : Option String × List Event :=
  if (goAtoi pid).isNone then
    (some ("invalid PID format: " ++ pid), [])
  else
    match w.procStat pid with
    | .notExist =>
        (some ("process with PID " ++ pid ++ " does not exist"), [.procLookup pid])
    | .accessError m =>
        (some ("cannot access process " ++ pid ++ ": " ++ m), [.procLookup pid])
    | .file _ => (none, [.procLookup pid])

/-- Embedding of `checkRequiredTools` of main.go: `exec.LookPath "perf"` then
`exec.LookPath "pprof"`, failing fast with a remediation hint. -/
def checkRequiredTools (w : World) : Option String × List Event :=
  if !w.perfOnPath then
    (some ("perf tool not found: " ++ w.lookPathErr "perf"
        ++ ". Install with: sudo apt-get install linux-perf"),
     [.lookPath "perf"])
  else if !w.pprofOnPath then
    (some ("pprof tool not found: " ++ w.lookPathErr "pprof"
        ++ ". Install with: go install github.com/google/pprof@latest"),
     [.lookPath "perf", .lookPath "pprof"])
  else
    (none, [.lookPath "perf", .lookPath "pprof"])

/-- The path `filepath.Join(tempDir, "perf.data")`. -/
def perfDataPath (w : World) : String := w.tempDirName ++ "/perf.data"

/-- The path `filepath.Join(tempDir, "profile.pb.gz")`. -/
def pprofPath (w : World) : String := w.tempDirName ++ "/profile.pb.gz"

/-- Arguments of the `perf record` capture-stage command. -/
def perfArgs (w : World) (pid : String) (duration : Int) : List String :=
  ["record", "-g", "--pid", pid, "-F", "999", "-o", perfDataPath w,
   "--", "sleep", toString duration]

/-- Arguments of the `pprof -proto` conversion-stage command. -/
def pprofArgs (w : World) : List String :=
  ["-proto", "-output", pprofPath w, perfDataPath w]

/-- Body of `runPerfProfile` after the temporary directory has been
created: capture stage, perf.data post-condition check, conversion stage,
profile.pb.gz post-condition check, open and stream.  The deferred
`os.RemoveAll(tempDir)` is appended by the wrapper `runPerfProfile`. -/
def runPerfProfileCore (w : World) (pid : String) (duration : Int) :
    Response × List Event :=
  let perfEv := Event.runSubprocess "perf" (perfArgs w pid duration)
  if !w.perfRun.ok then
    (if containsStr w.perfRun.stderr "Permission denied" then
        httpError ("Permission denied: perf requires elevated privileges. "
          ++ "Run with sudo or adjust perf_event_paranoid settings.") 403
     else if containsStr w.perfRun.stderr "No such process" then
        httpError ("Process with PID " ++ pid
          ++ " not found or exited during profiling") 400
     else
        httpError ("perf record failed: " ++ w.perfRun.errStr
          ++ "\nStderr: " ++ w.perfRun.stderr) 500,
     [perfEv])
  else
    let evs1 := [perfEv, Event.statFile (perfDataPath w)]
    match w.perfDataStat with
    | .notExist => (httpError "perf.data file was not created" 500, evs1)
    | .accessError _ => (httpError "perf.data file was not created" 500, evs1)
    | .file sz =>
      if sz = 0 then
        (httpError "perf.data file is empty - no samples collected" 500, evs1)
      else
        let pprofEv := Event.runSubprocess "pprof" (pprofArgs w)
        let evs2 := evs1 ++ [pprofEv]
        if !w.pprofRun.ok then
          (if containsStr w.pprofRun.stderr "no samples" then
              httpError ("No samples found in perf.data - process may have "
                ++ "been idle during profiling") 400
           else if containsStr w.pprofRun.stderr "permission denied" then
              httpError "Permission denied accessing perf.data file" 403
           else
              httpError ("pprof conversion failed: " ++ w.pprofRun.errStr
                ++ "\nStderr: " ++ w.pprofRun.stderr) 500,
           evs2)
        else
          let evs3 := evs2 ++ [Event.statFile (pprofPath w)]
          match w.pprofFileStat with
          | .notExist => (httpError "pprof file was not created" 500, evs3)
          | .accessError _ => (httpError "pprof file was not created" 500, evs3)
          | .file sz2 =>
            if sz2 = 0 then
              (httpError
                "pprof file is empty - conversion produced no data" 500, evs3)
            else
              let evs4 := evs3 ++ [Event.openFile (pprofPath w)]
              if !w.openOk then
                (httpError ("Failed to open pprof file: " ++ w.openErr) 500,
                 evs4)
              else
                ({ status := 200
                   contentType := some "application/octet-stream"
                   contentDisposition := some ("attachment; filename=profile-"
                     ++ pid ++ "-" ++ toString duration ++ ".pb.gz")
                   body := if w.copyOk then w.fileBytes else w.partialBytes },
                 evs4)

/-- Embedding of `runPerfProfile` of main.go: tool check, `os.MkdirTemp` with
`defer os.RemoveAll(tempDir)`, then the two-stage pipeline.  The deferred
removal is the last event of every path that created the directory. -/
def runPerfProfile (w : World) (pid : String) (duration : Int) :
    Response × List Event :=
  match checkRequiredTools w with
  | (some msg, evs) =>
      (httpError ("Required tools not available: " ++ msg) 500, evs)
  | (none, evs) =>
      if !w.mkdirOk then
        (httpError ("Failed to create temp directory: " ++ w.mkdirErr) 500,
         evs ++ [.mkdirTemp])
      else
        let core := runPerfProfileCore w pid duration
        (core.1, (evs ++ [.mkdirTemp] ++ core.2) ++ [.removeAll])

/-- Arguments handed to `sudo` by `runBCCProfile`. -/
def bccArgs (pid : String) (duration : Int) : List String :=
  ["profile-bpfcc", "-p", pid, "-F", "999", "-f", toString duration]

/-- Embedding of `runBCCProfile` of main.go: a single `sudo profile-bpfcc` invocation,
500 with the raw stderr on any failure, otherwise text/plain with the
captured stdout as the body. -/
def runBCCProfile (w : World) (pid : String) (duration : Int) :
    Response × List Event :=
  let ev := Event.runSubprocess "sudo" (bccArgs pid duration)
  if !w.bccRun.ok then
    (httpError ("Profiler failed: " ++ w.bccRun.errStr
      ++ "\nStderr: " ++ w.bccRun.stderr) 500, [ev])
  else
    ({ status := 200
       contentType := some "text/plain"
       contentDisposition := none
       body := w.bccRun.stdout }, [ev])

/-- The fixed folded-stack lines of the mock profile (everything after the
first line of the `generateMockProfile` format string). -/
def mockStackLines : String :=
  "main;runtime.main;main.main;net/http.ListenAndServe;net/http.(*Server).Serve 10\n"
  ++ "main;runtime.main;main.main;net/http.ListenAndServe;net/http.(*Server).Serve;net/http.(*conn).serve 25\n"
  ++ "main;runtime.main;main.main;net/http.ListenAndServe;net/http.(*Server).Serve;net/http.(*conn).serve;net/http.serverHandler.ServeHTTP 15\n"
  ++ "redis-server;main;aeMain;aeProcessEvents;aeApiPoll 50\n"
  ++ "redis-server;main;aeMain;aeProcessEvents;processCommand;lookupCommand 30\n"
  ++ "redis-server;main;aeMain;aeProcessEvents;processCommand;call 40\n"

/-- Embedding of `generateMockProfile` of main.go: the `fmt.Sprintf` interpolating the
pid and duration into the header line, followed by the fixed stack lines. -/
def generateMockProfile (pid : String) (duration : Int) : String :=
  "# Mock profile data for PID " ++ pid ++ ", duration "
    ++ toString duration ++ " seconds\n" ++ mockStackLines

/-- Embedding of `runProfile` of main.go: parameter validation, test-mode bypass, PID
validation, then dispatch on the format selector. -/
def runProfile (w : World) (req : Request) (format : Format) :
    Response × List Event :=
  if req.pid = "" ∨ req.seconds = "" then
    (httpError "Missing pid or seconds" 400, [])
  else
    match goAtoi req.seconds with
    | none => (httpError "Invalid seconds" 400, [])
    | some dur =>
      if dur ≤ 0 ∨ 300 < dur then
        (httpError "Invalid seconds" 400, [])
      else if req.testQ = "true" then
        ({ status := 200
           contentType := some (if format = .pprof then
             "application/octet-stream" else "text/plain")
           contentDisposition := none
           body := generateMockProfile req.pid dur }, [])
      else
        match validatePID w req.pid with
        | (some err, evs) =>
            (httpError ("Invalid PID: " ++ err) 400, evs)
        | (none, evs) =>
            if format = .pprof then
              let r := runPerfProfile w req.pid dur
              (r.1, evs ++ r.2)
            else
              let r := runBCCProfile w req.pid dur
              (r.1, evs ++ r.2)

/-- Split a character list at every occurrence of the separator. -/
def splitCh (c : Char) : List Char → List (List Char)
  | [] => [[]]
  | x :: xs =>
      match splitCh c xs with
      | [] => [[]]
      | h :: t => if x = c then [] :: h :: t else (x :: h) :: t

/-- A folded-stack line `frame;frame;...;frame COUNT`: a nonempty
semicolon-separated list of at least two nonempty frames, one space, and a
nonempty digit string. -/
def isFoldedLine (l : List Char) : Bool :=
  match splitCh ' ' l with
  | [frames, cnt] =>
      !cnt.isEmpty && cnt.all (·.isDigit) &&
      (let fs := splitCh ';' frames
       decide (2 ≤ fs.length) && fs.all (fun f => !f.isEmpty))
  | _ => false

/-- The string contains at least one complete newline-delimited
folded-stack line. -/
def hasFoldedLine (s : String) : Prop :=
  ∃ l : List Char, isFoldedLine l = true ∧
    containsSub ('\n' :: l ++ ['\n']) s.data = true

/-- Whether an event is a subprocess invocation. -/
def isSubprocessEv : Event → Bool
  | .runSubprocess _ _ => true
  | _ => false

/-- Whether an event is a PATH lookup of an external tool. -/
def isLookPathEv : Event → Bool
  | .lookPath _ => true
  | _ => false

/-! Helper lemmas and concrete oracle instantiations used by the theorems
and their witnesses. -/

theorem goAtoi_empty : goAtoi "" = none := rfl

theorem goAtoi_ne_empty {s : String} {d : Int} (h : goAtoi s = some d) :
    s ≠ "" := by
  intro he
  rw [he, goAtoi_empty] at h
  exact Option.noConfusion h

theorem containsSub_append_left (pre : List Char) {pat l : List Char}
    (h : containsSub pat l = true) : containsSub pat (pre ++ l) = true := by
  induction pre with
  | nil => simpa using h
  | cons x xs ih =>
      simp only [List.cons_append, containsSub, Bool.or_eq_true]
      exact Or.inr ih

theorem validatePID_ok_pair {w : World} {pid : String}
    (h : (validatePID w pid).1 = none) :
    validatePID w pid = (none, [Event.procLookup pid]) := by
  unfold validatePID at h ⊢
  by_cases ha : (goAtoi pid).isNone
  · simp [ha] at h
  · cases hps : w.procStat pid <;> simp [ha, hps] at h ⊢

theorem string_ne_of_head {a b : String}
    (h : a.data.head? ≠ b.data.head?) : a ≠ b :=
  fun e => h (by rw [e])

/-- A subprocess outcome for a run that succeeded silently. -/
def subOk : SubprocResult :=
  { ok := true, errStr := "", stdout := "", stderr := "" }

/-- An oracle in which every external interaction succeeds. -/
def wOk : World :=
  { procStat := fun _ => .file 1
    lookPathErr := fun _ => "executable file not found in $PATH"
    perfOnPath := true
    pprofOnPath := true
    mkdirOk := true
    mkdirErr := ""
    tempDirName := "/tmp/bcc-exporter-1"
    perfRun := subOk
    perfDataStat := .file 4096
    pprofRun := subOk
    pprofFileStat := .file 512
    openOk := true
    openErr := ""
    fileBytes := "PBGZ"
    copyOk := true
    partialBytes := ""
    bccRun := { ok := true, errStr := "", stdout := "a;b 1\n", stderr := "" } }

/-- An oracle in which `perf record` exits zero but writes an empty
perf.data file. -/
def wEmptyCapture : World := { wOk with perfDataStat := .file 0 }

/-- An oracle in which no `/proc/<pid>` entry exists for any pid. -/
def wNoProc : World := { wOk with procStat := fun _ => .notExist }

/-- An oracle in which `perf record` fails with a permission-denied
message on stderr. -/
def wPermDenied : World :=
  { wOk with perfRun :=
      { ok := false, errStr := "exit status 255", stdout := ""
        stderr := "perf_event_open failed: Permission denied" } }

/-- An oracle in which the `sudo profile-bpfcc` invocation fails. -/
def wBccFail : World :=
  { wOk with bccRun :=
      { ok := false, errStr := "exit status 1", stdout := ""
        stderr := "profile-bpfcc: command not found" } }

/-! Claim theorems. -/

/-- Claim C1: whenever the `seconds` query value is absent, does not parse
as an integer, or parses to an integer outside [1,300], `runProfile`
responds 400 and performs no external effect at all — no subprocess, no
/proc lookup, no tool check, no workspace allocation — in every mode and
for both format selectors. -/
theorem secondsRejectedWithoutEffects
    (w : World) (req : Request) (format : Format)
    (h : req.seconds = "" ∨ goAtoi req.seconds = none ∨
         ∃ d : Int, goAtoi req.seconds = some d ∧ (d < 1 ∨ 300 < d)) :
    (runProfile w req format).1.status = 400 ∧
    (runProfile w req format).2 = [] := by
  rcases h with h | h | ⟨d, hd, hr⟩
  · simp [runProfile, h, httpError]
  · by_cases hp : req.pid = "" ∨ req.seconds = ""
    · simp [runProfile, hp, httpError]
    · simp [runProfile, hp, h, httpError]
  · by_cases hp : req.pid = "" ∨ req.seconds = ""
    · simp [runProfile, hp, httpError]
    · have hr' : d ≤ 0 ∨ 300 < d := by omega
      simp [runProfile, hp, hd, hr', httpError]

/-- Witness for C1: the request `seconds=abc` is rejected with 400 and an
empty effect trace. -/
theorem secondsRejectedWitness :
    (runProfile wOk ⟨"123", "abc", ""⟩ .folded).1.status = 400 ∧
    (runProfile wOk ⟨"123", "abc", ""⟩ .folded).2 = [] :=
  secondsRejectedWithoutEffects wOk ⟨"123", "abc", ""⟩ .folded
    (Or.inr (Or.inl (by decide)))

theorem core_no_workspace_events (w : World) (pid : String) (duration : Int) :
    Event.mkdirTemp ∉ (runPerfProfileCore w pid duration).2 ∧
    Event.removeAll ∉ (runPerfProfileCore w pid duration).2 := by
  unfold runPerfProfileCore
  refine ⟨?_, ?_⟩ <;> (repeat' split) <;> simp [List.mem_append]

/-- Claim C2: for every binary-format request that reaches workspace
allocation (tools available, `os.MkdirTemp` succeeded), the temporary
directory is removed on every exit path, and the deferred removal is the
last effect before `runPerfProfile` returns. -/
theorem perfWorkspaceAlwaysRemoved
    (w : World) (pid : String) (duration : Int)
    (hperf : w.perfOnPath = true) (hpprof : w.pprofOnPath = true)
    (hmk : w.mkdirOk = true) :
    Event.mkdirTemp ∈ (runPerfProfile w pid duration).2 ∧
    (runPerfProfile w pid duration).2.getLast? = some Event.removeAll := by
  unfold runPerfProfile checkRequiredTools
  simp [hperf, hpprof, hmk]
  rw [← List.cons_append, List.getLast?_concat]

/-- Witness for C2: in the all-success oracle the trace contains the
workspace creation and ends with its removal. -/
theorem perfWorkspaceRemovedWitness :
    Event.mkdirTemp ∈ (runPerfProfile wOk "1234" 5).2 ∧
    (runPerfProfile wOk "1234" 5).2.getLast? = some Event.removeAll :=
  perfWorkspaceAlwaysRemoved wOk "1234" 5 rfl rfl rfl

/-- Claim C3: when the capture stage exits non-zero, the handler
classifies by the captured stderr — a "Permission denied" substring gives
403, otherwise a "No such process" substring gives 400, otherwise 500 with
the raw stderr embedded in the body — and the workspace is deleted in all
three cases. -/
theorem perfCaptureFailureClassified
    (w : World) (pid : String) (duration : Int)
    (hperf : w.perfOnPath = true) (hpprof : w.pprofOnPath = true)
    (hmk : w.mkdirOk = true) (hfail : w.perfRun.ok = false) :
    (containsStr w.perfRun.stderr "Permission denied" = true →
      (runPerfProfile w pid duration).1.status = 403) ∧
    (containsStr w.perfRun.stderr "Permission denied" = false →
     containsStr w.perfRun.stderr "No such process" = true →
      (runPerfProfile w pid duration).1.status = 400) ∧
    (containsStr w.perfRun.stderr "Permission denied" = false →
     containsStr w.perfRun.stderr "No such process" = false →
      (runPerfProfile w pid duration).1.status = 500 ∧
      (runPerfProfile w pid duration).1.body =
        "perf record failed: " ++ w.perfRun.errStr ++ "\nStderr: "
          ++ w.perfRun.stderr ++ "\n") ∧
    Event.removeAll ∈ (runPerfProfile w pid duration).2 := by
  refine ⟨fun h1 => ?_, fun h1 h2 => ?_, fun h1 h2 => ⟨?_, ?_⟩, ?_⟩ <;>
    simp [runPerfProfile, checkRequiredTools, runPerfProfileCore,
      hperf, hpprof, hmk, hfail, httpError, *]

/-- Witness for C3: a capture-stage failure whose stderr contains
"Permission denied" yields 403 and the workspace is still deleted. -/
theorem perfCaptureFailureWitness :
    (runPerfProfile wPermDenied "1234" 5).1.status = 403 ∧
    Event.removeAll ∈ (runPerfProfile wPermDenied "1234" 5).2 :=
  ⟨(perfCaptureFailureClassified wPermDenied "1234" 5 rfl rfl rfl rfl).1
      (by decide),
   (perfCaptureFailureClassified wPermDenied "1234" 5 rfl rfl rfl rfl).2.2.2⟩

/-- Claim C4 (amended): when the capture stage exits zero but perf.data is
empty, the request fails with the distinct diagnostic "perf.data file is
empty - no samples collected" and HTTP status 500 — not 400 as claimed,
and not success. -/
theorem perfEmptyCaptureGives500
    (w : World) (pid : String) (duration : Int)
    (hperf : w.perfOnPath = true) (hpprof : w.pprofOnPath = true)
    (hmk : w.mkdirOk = true) (hok : w.perfRun.ok = true)
    (hstat : w.perfDataStat = .file 0) :
    (runPerfProfile w pid duration).1 =
      httpError "perf.data file is empty - no samples collected" 500 := by
  simp [runPerfProfile, checkRequiredTools, runPerfProfileCore,
    hperf, hpprof, hmk, hok, hstat]

/-- Counterexample to C4 as stated: with the capture tool exiting zero and
an empty perf.data file, the concrete response status is 500, not the
claimed 400. -/
theorem perfEmptyCaptureCounterexample :
    (runProfile wEmptyCapture ⟨"1234", "5", "false"⟩ .pprof).1.status = 500 ∧
    (runProfile wEmptyCapture ⟨"1234", "5", "false"⟩ .pprof).1.status ≠ 400 ∧
    (runProfile wEmptyCapture ⟨"1234", "5", "false"⟩ .pprof).1.body =
      "perf.data file is empty - no samples collected\n" := by
  refine ⟨by decide, by decide, by decide⟩

/-- Witness for the amended C4: the concrete oracle with an empty capture
file produces exactly the 500 no-samples response. -/
theorem perfEmptyCaptureWitness :
    (runPerfProfile wEmptyCapture "1234" 5).1 =
      httpError "perf.data file is empty - no samples collected" 500 :=
  perfEmptyCaptureGives500 wEmptyCapture "1234" 5 rfl rfl rfl rfl rfl

/-- Claim C5 (amended): the validator produces exactly two distinct
diagnostics for duration rejections — "Missing pid or seconds" when the
parameter is absent, and "Invalid seconds" both when it does not parse as
an integer and when the parsed value lies outside [1,300]; the missing
diagnostic differs from the shared one, but non-integer and out-of-range
share a single message. -/
theorem secondsDiagnosticsTwoDistinct
    (w : World) (req : Request) (format : Format) :
    (req.seconds = "" →
      (runProfile w req format).1.body = "Missing pid or seconds\n") ∧
    (req.pid ≠ "" → goAtoi req.seconds = none → req.seconds ≠ "" →
      (runProfile w req format).1.body = "Invalid seconds\n") ∧
    (req.pid ≠ "" → ∀ d : Int, goAtoi req.seconds = some d →
      d < 1 ∨ 300 < d →
      (runProfile w req format).1.body = "Invalid seconds\n") ∧
    ("Missing pid or seconds\n" : String) ≠ "Invalid seconds\n" := by
  refine ⟨fun h => ?_, fun hp hn hne => ?_, fun hp d hd hr => ?_, by decide⟩
  · simp [runProfile, h, httpError]
  · have hps : ¬(req.pid = "" ∨ req.seconds = "") := by simp [hp, hne]
    simp [runProfile, hps, hn, httpError]
  · have hne := goAtoi_ne_empty hd
    have hps : ¬(req.pid = "" ∨ req.seconds = "") := by simp [hp, hne]
    have hr' : d ≤ 0 ∨ 300 < d := by omega
    simp [runProfile, hps, hd, hr', httpError]

/-- Witness for the amended C5: the three rejection causes at concrete
inputs, showing the missing diagnostic and the shared invalid one. -/
theorem secondsDiagnosticsWitness :
    (runProfile wOk ⟨"1", "", ""⟩ .folded).1.body = "Missing pid or seconds\n" ∧
    (runProfile wOk ⟨"1", "abc", ""⟩ .folded).1.body = "Invalid seconds\n" ∧
    (runProfile wOk ⟨"1", "301", ""⟩ .folded).1.body = "Invalid seconds\n" :=
  ⟨(secondsDiagnosticsTwoDistinct wOk ⟨"1", "", ""⟩ .folded).1 rfl,
   (secondsDiagnosticsTwoDistinct wOk ⟨"1", "abc", ""⟩ .folded).2.1
      (by decide) (by decide) (by decide),
   (secondsDiagnosticsTwoDistinct wOk ⟨"1", "301", ""⟩ .folded).2.2.1
      (by decide) 301 (by decide) (by decide)⟩

/-- Counterexample to C5 as stated: a non-integer duration and an
out-of-range duration are two different rejection causes whose response
bodies are byte-identical, so the three causes do not produce
pairwise-distinct diagnostics. -/
theorem secondsDiagnosticsCounterexample :
    goAtoi "abc" = none ∧
    goAtoi "301" = some 301 ∧ ((301 : Int) < 1 ∨ 300 < (301 : Int)) ∧
    (runProfile wOk ⟨"1", "abc", ""⟩ .folded).1.body =
      (runProfile wOk ⟨"1", "301", ""⟩ .folded).1.body := by
  refine ⟨by decide, by decide, by decide, by decide⟩

/-- Claim C6 (amended): every identifier string rejected by `strconv.Atoi`
(not parseable as a signed integer) fails with the malformed-identifier
diagnostic and no /proc lookup, and that diagnostic differs from the
no-such-process and inaccessible-process diagnostics for all identifiers
and detail messages; negative integers such as "-1", however, pass the
syntax check and are reported through the process-table lookup instead. -/
theorem pidMalformedDiagnosticDistinct
    (w : World) (pid : String) (h : goAtoi pid = none) :
    (validatePID w pid).1 = some ("invalid PID format: " ++ pid) ∧
    (validatePID w pid).2 = [] ∧
    (∀ q : String, "invalid PID format: " ++ pid ≠
      "process with PID " ++ q ++ " does not exist") ∧
    (∀ q m : String, "invalid PID format: " ++ pid ≠
      "cannot access process " ++ q ++ ": " ++ m) := by
  refine ⟨?_, ?_, fun q => ?_, fun q m => ?_⟩
  · simp [validatePID, h]
  · simp [validatePID, h]
  · exact string_ne_of_head (by decide : (some 'i' : Option Char) ≠ some 'p')
  · exact string_ne_of_head (by decide : (some 'i' : Option Char) ≠ some 'c')

/-- Witness for the amended C6: a non-numeric identifier gets the
malformed diagnostic, which differs from a no-such-process diagnostic. -/
theorem pidMalformedWitness :
    (validatePID wOk "abc").1 = some ("invalid PID format: " ++ "abc") ∧
    "invalid PID format: " ++ "abc" ≠
      "process with PID " ++ "999" ++ " does not exist" :=
  ⟨(pidMalformedDiagnosticDistinct wOk "abc" (by decide)).1,
   (pidMalformedDiagnosticDistinct wOk "abc" (by decide)).2.2.1 "999"⟩

/-- Counterexample to C6 as stated: "-1" is not a syntactically valid
non-negative integer, yet `validatePID` accepts its syntax (Atoi parses
signed integers) and reports the no-such-process diagnostic, not the
malformed-identifier one. -/
theorem pidNegativeCounterexample :
    goAtoi "-1" = some (-1) ∧
    (validatePID wNoProc "-1").1 =
      some "process with PID -1 does not exist" ∧
    (validatePID wNoProc "-1").1 ≠ some "invalid PID format: -1" := by
  refine ⟨by decide, by decide, by decide⟩

theorem runProfile_testmode_eq
    (w : World) (pid s : String) (d : Int) (format : Format)
    (hpid : pid ≠ "") (hs : goAtoi s = some d) (h1 : 1 ≤ d) (h2 : d ≤ 300) :
    runProfile w ⟨pid, s, "true"⟩ format =
      ({ status := 200
         contentType := some (if format = .pprof then
           "application/octet-stream" else "text/plain")
         contentDisposition := none
         body := generateMockProfile pid d }, []) := by
  have hne := goAtoi_ne_empty hs
  have hps : ¬(pid = "" ∨ s = "") := by simp [hpid, hne]
  have hr : ¬(d ≤ 0 ∨ 300 < d) := by omega
  simp [runProfile, hps, hs, hr]

set_option maxRecDepth 16384 in
/-- Claim C7: a valid test-mode request answers 200 with the
deterministic mock text computed from pid and duration alone; the body
embeds both literal values, contains a complete folded-stack line, and is
byte-identical for both format selectors, while the content type is
octet-stream for the binary selector and text/plain for the folded one. -/
theorem mockProfileContract
    (w : World) (pid s : String) (d : Int) (format : Format)
    (hpid : pid ≠ "") (hs : goAtoi s = some d) (h1 : 1 ≤ d) (h2 : d ≤ 300) :
    (runProfile w ⟨pid, s, "true"⟩ format).1.status = 200 ∧
    (runProfile w ⟨pid, s, "true"⟩ format).1.body = generateMockProfile pid d ∧
    pid.data <:+: (runProfile w ⟨pid, s, "true"⟩ format).1.body.data ∧
    (toString d).data <:+: (runProfile w ⟨pid, s, "true"⟩ format).1.body.data ∧
    hasFoldedLine (runProfile w ⟨pid, s, "true"⟩ format).1.body ∧
    (runProfile w ⟨pid, s, "true"⟩ .pprof).1.body =
      (runProfile w ⟨pid, s, "true"⟩ .folded).1.body ∧
    (runProfile w ⟨pid, s, "true"⟩ .pprof).1.contentType =
      some "application/octet-stream" ∧
    (runProfile w ⟨pid, s, "true"⟩ .folded).1.contentType =
      some "text/plain" := by
  have he := runProfile_testmode_eq w pid s d format hpid hs h1 h2
  have hep := runProfile_testmode_eq w pid s d .pprof hpid hs h1 h2
  have hef := runProfile_testmode_eq w pid s d .folded hpid hs h1 h2
  rw [he, hep, hef]
  refine ⟨rfl, rfl, ?_, ?_, ?_, rfl, by simp, by simp⟩
  · show pid.data <:+: (generateMockProfile pid d).data
    exact ⟨("# Mock profile data for PID ").data,
      (", duration " ++ toString d ++ " seconds\n" ++ mockStackLines).data,
      by simp [generateMockProfile, String.data_append, List.append_assoc]⟩
  · show (toString d).data <:+: (generateMockProfile pid d).data
    exact ⟨("# Mock profile data for PID " ++ pid ++ ", duration ").data,
      (" seconds\n" ++ mockStackLines).data,
      by simp [generateMockProfile, String.data_append, List.append_assoc]⟩
  · show hasFoldedLine (generateMockProfile pid d)
    refine ⟨("redis-server;main;aeMain;aeProcessEvents;aeApiPoll 50").data,
      by decide, ?_⟩
    simp only [generateMockProfile, String.data_append, List.append_assoc]
    exact containsSub_append_left _ (containsSub_append_left _
      (containsSub_append_left _ (containsSub_append_left _
        (containsSub_append_left _ (by decide)))))

/-- Witness for C7: the concrete mock request pid=1234, seconds=5. -/
theorem mockProfileWitness :
    (runProfile wOk ⟨"1234", "5", "true"⟩ .folded).1.status = 200 ∧
    (runProfile wOk ⟨"1234", "5", "true"⟩ .folded).1.body =
      generateMockProfile "1234" 5 ∧
    hasFoldedLine (runProfile wOk ⟨"1234", "5", "true"⟩ .folded).1.body :=
  ⟨(mockProfileContract wOk "1234" "5" 5 .folded (by decide) (by decide)
      (by decide) (by decide)).1,
   (mockProfileContract wOk "1234" "5" 5 .folded (by decide) (by decide)
      (by decide) (by decide)).2.1,
   (mockProfileContract wOk "1234" "5" 5 .folded (by decide) (by decide)
      (by decide) (by decide)).2.2.2.2.1⟩

/-- Claim C10: in test mode the pid is never syntax-checked or looked up —
any non-empty pid string yields 200 with the string embedded verbatim and
an empty effect trace (the mock branch returns before `validatePID`),
while duration validation still applies in test mode. -/
theorem testModeSkipsPidValidation
    (w : World) (pid s : String) (d : Int) (format : Format)
    (hpid : pid ≠ "") (hs : goAtoi s = some d) (h1 : 1 ≤ d) (h2 : d ≤ 300) :
    (runProfile w ⟨pid, s, "true"⟩ format).1.status = 200 ∧
    pid.data <:+: (runProfile w ⟨pid, s, "true"⟩ format).1.body.data ∧
    (runProfile w ⟨pid, s, "true"⟩ format).2 = [] ∧
    (∀ s' : String, s' ≠ "" → goAtoi s' = none →
      (runProfile w ⟨pid, s', "true"⟩ format).1.status = 400) ∧
    (∀ s' : String, ∀ d' : Int, goAtoi s' = some d' → d' < 1 ∨ 300 < d' →
      (runProfile w ⟨pid, s', "true"⟩ format).1.status = 400) := by
  have he := runProfile_testmode_eq w pid s d format hpid hs h1 h2
  refine ⟨by rw [he], ?_, by rw [he], fun s' hne hn => ?_,
    fun s' d' hd' hr => ?_⟩
  · rw [he]
    show pid.data <:+: (generateMockProfile pid d).data
    exact ⟨("# Mock profile data for PID ").data,
      (", duration " ++ toString d ++ " seconds\n" ++ mockStackLines).data,
      by simp [generateMockProfile, String.data_append, List.append_assoc]⟩
  · have hps : ¬(pid = "" ∨ s' = "") := by simp [hpid, hne]
    simp [runProfile, hps, hn, httpError]
  · have hne := goAtoi_ne_empty hd'
    have hps : ¬(pid = "" ∨ s' = "") := by simp [hpid, hne]
    have hr' : d' ≤ 0 ∨ 300 < d' := by omega
    simp [runProfile, hps, hd', hr', httpError]

/-- Witness for C10: the non-numeric pid "abc" in test mode gets 200, its
verbatim embedding, and an empty effect trace. -/
theorem testModeSkipsPidWitness :
    (runProfile wOk ⟨"abc", "5", "true"⟩ .pprof).1.status = 200 ∧
    ("abc" : String).data <:+:
      (runProfile wOk ⟨"abc", "5", "true"⟩ .pprof).1.body.data ∧
    (runProfile wOk ⟨"abc", "5", "true"⟩ .pprof).2 = [] :=
  ⟨(testModeSkipsPidValidation wOk "abc" "5" 5 .pprof (by decide) (by decide)
      (by decide) (by decide)).1,
   (testModeSkipsPidValidation wOk "abc" "5" 5 .pprof (by decide) (by decide)
      (by decide) (by decide)).2.1,
   (testModeSkipsPidValidation wOk "abc" "5" 5 .pprof (by decide) (by decide)
      (by decide) (by decide)).2.2.1⟩

theorem runBCCProfile_trace (w : World) (pid : String) (duration : Int) :
    (runBCCProfile w pid duration).2 =
      [Event.runSubprocess "sudo" (bccArgs pid duration)] := by
  cases hob : w.bccRun.ok <;> simp [runBCCProfile, hob]

theorem runProfile_folded_eq
    (w : World) (pid s tq : String) (d : Int)
    (hpid : pid ≠ "") (hs : goAtoi s = some d) (h1 : 1 ≤ d) (h2 : d ≤ 300)
    (htq : tq ≠ "true") (hvp : (validatePID w pid).1 = none) :
    runProfile w ⟨pid, s, tq⟩ .folded =
      ((runBCCProfile w pid d).1,
        Event.procLookup pid :: (runBCCProfile w pid d).2) := by
  have hne := goAtoi_ne_empty hs
  have hps : ¬(pid = "" ∨ s = "") := by simp [hpid, hne]
  have hr : ¬(d ≤ 0 ∨ 300 < d) := by omega
  have hpair := validatePID_ok_pair hvp
  simp [runProfile, hps, hs, hr, htq, hpair]

/-- Claim C8: a validated non-test folded request invokes the profiler
subprocess exactly once; a non-zero exit yields 500 with the full
ProfilerFailed message carrying the raw stderr and no substring
sub-classification, and a zero exit yields text/plain with exactly the
captured stdout as the body. -/
theorem bccPipelineContract
    (w : World) (pid s tq : String) (d : Int)
    (hpid : pid ≠ "") (hs : goAtoi s = some d) (h1 : 1 ≤ d) (h2 : d ≤ 300)
    (htq : tq ≠ "true") (hvp : (validatePID w pid).1 = none) :
    ((runProfile w ⟨pid, s, tq⟩ .folded).2.filter isSubprocessEv =
      [Event.runSubprocess "sudo" (bccArgs pid d)]) ∧
    (w.bccRun.ok = false →
      (runProfile w ⟨pid, s, tq⟩ .folded).1.status = 500 ∧
      (runProfile w ⟨pid, s, tq⟩ .folded).1.body =
        "Profiler failed: " ++ w.bccRun.errStr ++ "\nStderr: "
          ++ w.bccRun.stderr ++ "\n") ∧
    (w.bccRun.ok = true →
      (runProfile w ⟨pid, s, tq⟩ .folded).1.status = 200 ∧
      (runProfile w ⟨pid, s, tq⟩ .folded).1.contentType = some "text/plain" ∧
      (runProfile w ⟨pid, s, tq⟩ .folded).1.body = w.bccRun.stdout) := by
  have he := runProfile_folded_eq w pid s tq d hpid hs h1 h2 htq hvp
  have ht := runBCCProfile_trace w pid d
  refine ⟨?_, fun hb => ?_, fun hb => ?_⟩
  · rw [he]
    simp [ht, isSubprocessEv]
  · rw [he]
    simp [runBCCProfile, hb, httpError]
  · rw [he]
    simp [runBCCProfile, hb]

/-- Witness for C8: the all-success oracle serves the captured stdout with
text/plain after exactly one profiler invocation. -/
theorem bccPipelineWitness :
    (runProfile wOk ⟨"1234", "5", ""⟩ .folded).2.filter isSubprocessEv =
      [Event.runSubprocess "sudo" (bccArgs "1234" 5)] ∧
    (runProfile wOk ⟨"1234", "5", ""⟩ .folded).1.status = 200 ∧
    (runProfile wOk ⟨"1234", "5", ""⟩ .folded).1.body = wOk.bccRun.stdout :=
  ⟨(bccPipelineContract wOk "1234" "5" "" 5 (by decide) (by decide)
      (by decide) (by decide) (by decide) (by decide)).1,
   ((bccPipelineContract wOk "1234" "5" "" 5 (by decide) (by decide)
      (by decide) (by decide) (by decide) (by decide)).2.2 rfl).1,
   ((bccPipelineContract wOk "1234" "5" "" 5 (by decide) (by decide)
      (by decide) (by decide) (by decide) (by decide)).2.2 rfl).2.2⟩

/-- Claim C9: the folded path performs no tool-availability check and
allocates no workspace — past validation the trace is exactly the /proc
lookup followed by the single profiler invocation, with no PATH-lookup
and no temporary-directory event; when the profiler fails (for example
because it is absent), the response is the generic 500 whose body starts
with the ProfilerFailed prefix, not a tool-unavailable message. -/
theorem foldedPathNoToolCheckNoWorkspace
    (w : World) (pid s tq : String) (d : Int)
    (hpid : pid ≠ "") (hs : goAtoi s = some d) (h1 : 1 ≤ d) (h2 : d ≤ 300)
    (htq : tq ≠ "true") (hvp : (validatePID w pid).1 = none) :
    (runProfile w ⟨pid, s, tq⟩ .folded).2 =
      [Event.procLookup pid, Event.runSubprocess "sudo" (bccArgs pid d)] ∧
    (runProfile w ⟨pid, s, tq⟩ .folded).2.filter isLookPathEv = [] ∧
    Event.mkdirTemp ∉ (runProfile w ⟨pid, s, tq⟩ .folded).2 ∧
    (w.bccRun.ok = false →
      (runProfile w ⟨pid, s, tq⟩ .folded).1.status = 500 ∧
      ∃ rest : List Char, (runProfile w ⟨pid, s, tq⟩ .folded).1.body.data =
        ("Profiler failed: ").data ++ rest) := by
  have he := runProfile_folded_eq w pid s tq d hpid hs h1 h2 htq hvp
  have ht := runBCCProfile_trace w pid d
  refine ⟨?_, ?_, ?_, fun hb => ⟨?_, ?_⟩⟩
  · rw [he]; simp [ht]
  · rw [he]; simp [ht, isLookPathEv]
  · rw [he]; simp [ht]
  · rw [he]; simp [runBCCProfile, hb, httpError]
  · rw [he]
    refine ⟨(w.bccRun.errStr ++ "\nStderr: " ++ w.bccRun.stderr ++ "\n").data,
      ?_⟩
    simp [runBCCProfile, hb, httpError, String.data_append, List.append_assoc]

/-- Witness for C9: with the profiler invocation failing, the concrete
trace has no PATH lookup and no workspace event, and the response is the
generic 500. -/
theorem foldedPathWitness :
    (runProfile wBccFail ⟨"1234", "5", ""⟩ .folded).2.filter isLookPathEv
      = [] ∧
    Event.mkdirTemp ∉ (runProfile wBccFail ⟨"1234", "5", ""⟩ .folded).2 ∧
    (runProfile wBccFail ⟨"1234", "5", ""⟩ .folded).1.status = 500 :=
  ⟨(foldedPathNoToolCheckNoWorkspace wBccFail "1234" "5" "" 5 (by decide)
      (by decide) (by decide) (by decide) (by decide) (by decide)).2.1,
   (foldedPathNoToolCheckNoWorkspace wBccFail "1234" "5" "" 5 (by decide)
      (by decide) (by decide) (by decide) (by decide) (by decide)).2.2.1,
   ((foldedPathNoToolCheckNoWorkspace wBccFail "1234" "5" "" 5 (by decide)
      (by decide) (by decide) (by decide) (by decide) (by decide)).2.2.2
      rfl).1⟩

end BccExporter
